import Mathlib

/-!
Verification of `psiphon/LookupIP.go` (device-bound DNS hostname resolution).

The Go source is shallowly embedded below.  Pure helpers from the Go standard
library that the file calls (`net.ParseIP`, `net.IP.To4`) are translated from
their documented behavior in the era of this code (decimal dotted-quad IPv4
parsing, RFC 4291 IPv6 parsing with `::` compression and an optional embedded
IPv4 tail, and the IPv4-in-IPv6 unwrapping of `To4`).  Effectful steps
(socket syscalls, the DNS message exchange) are modelled by an explicit
environment `Env` supplying the outcome of each external call, and the
embedded function returns, next to the Go return values, the ordered trace of
external events it performed, so that ordering and resource-release
properties can be stated.
-/

set_option maxRecDepth 10000

/-- Go `net.IP`: a byte slice.  `net.ParseIP` of this era always returns the
16-byte form (IPv4 addresses are returned in IPv4-in-IPv6 form). -/
abbrev IP := List Nat

/-- Decimal digit value of a character, if it is a digit. -/
def digitVal (c : Char) : Option Nat :=
  if '0' ≤ c ∧ c ≤ '9' then some (c.toNat - '0'.toNat) else none

/-- Hexadecimal digit value of a character, if it is a hex digit. -/
def hexVal (c : Char) : Option Nat :=
  if '0' ≤ c ∧ c ≤ '9' then some (c.toNat - '0'.toNat)
  else if 'a' ≤ c ∧ c ≤ 'f' then some (c.toNat - 'a'.toNat + 10)
  else if 'A' ≤ c ∧ c ≤ 'F' then some (c.toNat - 'A'.toNat + 10)
  else none

/-- Accumulating loop of Go `dtoi`: consume leading decimal digits; the Go
cutoff (`n >= big`, with `big = 0xFFFFFF`) makes the whole parse fail. -/
def dtoiLoop : List Char → Nat → Option (Nat × List Char)
  | [], n => some (n, [])
  | c :: rest, n =>
    match digitVal c with
    | none => some (n, c :: rest)
    | some d =>
      let n2 := n * 10 + d
      if 0xFFFFFF ≤ n2 then none else dtoiLoop rest n2

/-- Go `dtoi`: parse a decimal number prefix; fails when no digit is present
or the accumulated value reaches the cutoff. -/
def dtoi (s : List Char) : Option (Nat × List Char) :=
  match s with
  | [] => none
  | c :: _ =>
    match digitVal c with
    | none => none
    | some _ => dtoiLoop s 0

/-- Accumulating loop of Go `xtoi` (hexadecimal), with the same cutoff. -/
def xtoiLoop : List Char → Nat → Option (Nat × List Char)
  | [], n => some (n, [])
  | c :: rest, n =>
    match hexVal c with
    | none => some (n, c :: rest)
    | some d =>
      let n2 := n * 16 + d
      if 0xFFFFFF ≤ n2 then none else xtoiLoop rest n2

/-- Go `xtoi`: parse a hexadecimal number prefix. -/
def xtoi (s : List Char) : Option (Nat × List Char) :=
  match s with
  | [] => none
  | c :: _ =>
    match hexVal c with
    | none => none
    | some _ => xtoiLoop s 0

/-- Go `net.IPv4` / `v4InV6`: the 16-byte IPv4-in-IPv6 form of a.b.c.d. -/
def v4InV6 (a b c d : Nat) : IP :=
  [0, 0, 0, 0, 0, 0, 0, 0, 0, 0, 0xff, 0xff, a, b, c, d]

/-- Expect a literal dot and consume it. -/
def dotThen : List Char → Option (List Char)
  | '.' :: r => some r
  | _ => none

/-- Go `parseIPv4`: four decimal fields in 0..255 separated by dots,
consuming the whole string; result in IPv4-in-IPv6 form. -/
def parseIPv4 (s : List Char) : Option IP :=
  match dtoi s with
  | none => none
  | some (a, s) =>
    if 255 < a then none else
    match dotThen s with
    | none => none
    | some s =>
      match dtoi s with
      | none => none
      | some (b, s) =>
        if 255 < b then none else
        match dotThen s with
        | none => none
        | some s =>
          match dtoi s with
          | none => none
          | some (c, s) =>
            if 255 < c then none else
            match dotThen s with
            | none => none
            | some s =>
              match dtoi s with
              | none => none
              | some (d, s) =>
                if 255 < d then none else
                if s.isEmpty then some (v4InV6 a b c d) else none

/-- Loop of Go `parseIPv6`: one call per 16-bit group (at most 8, enforced by
the fuel argument which mirrors the `i < IPv6len` loop bound).  State: the
bytes emitted so far, the byte position of the `::` ellipsis if one was seen.
Returns the emitted bytes, the ellipsis position, and the unconsumed rest of
the string (nonempty only when the loop exits by exhausting its bound). -/
def v6Loop : Nat → List Char → List Nat → Option Nat →
    Option (List Nat × Option Nat × List Char)
  | 0, s, acc, ell => some (acc, ell, s)
  | fuel + 1, s, acc, ell =>
    match xtoi s with
    | none => none
    | some (n, rest) =>
      if 0xFFFF < n then none
      else if rest.head? = some '.' then
        -- trailing embedded IPv4 address
        if ell.isNone ∧ acc.length ≠ 12 then none
        else if 16 < acc.length + 4 then none
        else
          match parseIPv4 s with
          | none => none
          | some ip4 => some (acc ++ ip4.drop 12, ell, [])
      else
        let acc2 := acc ++ [n / 256, n % 256]
        match rest with
        | [] => some (acc2, ell, [])
        | ':' :: s1 =>
          match s1 with
          | [] => none
          | ':' :: s2 =>
            if ell.isSome then none
            else
              match s2 with
              | [] => some (acc2, some acc2.length, [])
              | _ => v6Loop fuel s2 acc2 (some acc2.length)
          | _ => v6Loop fuel s1 acc2 ell
        | _ => none

/-- Go `parseIPv6` (without zone support, which this code never exercises):
optional leading `::`, up to eight hexadecimal groups, optional embedded
IPv4 tail, and expansion of the ellipsis to the missing zero bytes. -/
def parseIPv6 (s0 : List Char) : Option IP :=
  let startState : List Char × Option Nat :=
    match s0 with
    | ':' :: ':' :: rest => (rest, some 0)
    | _ => (s0, none)
  match startState with
  | (s, ell0) =>
    if s.isEmpty then
      match ell0 with
      | some _ => some (List.replicate 16 0)
      | none => none
    else
      match v6Loop 8 s [] ell0 with
      | none => none
      | some (acc, ell, sRem) =>
        if ¬ sRem.isEmpty then none
        else if acc.length < 16 then
          match ell with
          | none => none
          | some e =>
            some (acc.take e ++ List.replicate (16 - acc.length) 0 ++ acc.drop e)
        else
          match ell with
          | some _ => none
          | none => some acc

/-- Membership test used by the `net.ParseIP` dispatch: the first of a dot or
a colon decides between the IPv4 and the IPv6 grammar. -/
def parseIPKind : List Char → Option Bool
  | [] => none
  | '.' :: _ => some true
  | ':' :: _ => some false
  | _ :: rest => parseIPKind rest

/-- Go `net.ParseIP`: scan for the first dot or colon and dispatch to the
corresponding grammar; a string with neither is not an address. -/
def ParseIP (s : String) : Option IP :=
  match parseIPKind s.data with
  | some true => parseIPv4 s.data
  | some false => parseIPv6 s.data
  | none => none

/-- Go `net.IP.To4`: unwrap a 16-byte IPv4-in-IPv6 address to its four
bytes; plain IPv6 addresses have no such form. -/
def To4 (ip : IP) : Option (List Nat) :=
  if ip.length = 4 then some ip
  else if ip.length = 16 ∧ (ip.take 10).all (fun b => b = 0) ∧
      ip.get? 10 = some 0xff ∧ ip.get? 11 = some 0xff then
    some (ip.drop 12)
  else none

/-- Constant `DNS_PORT` from the source. -/
def DNS_PORT : Nat := 53

/-- Numeric value of `dns.TypeA` in the DNS wire protocol. -/
def TypeA : Nat := 1

/-- Go-dns `IsFqdn`: the name ends in a dot. -/
def IsFqdn (s : String) : Bool := s.endsWith "."

/-- Go-dns `Fqdn`: append a trailing dot unless already fully qualified. -/
def Fqdn (s : String) : String := if IsFqdn s then s else s ++ "."

/-- Model of a DNS answer record as consumed by `bindLookupIP`: the code only
distinguishes type-A records (whose address it extracts) from every other
record type. -/
inductive RR where
  | A (addr : IP)
  | other
  deriving DecidableEq

/-- Model of a parsed DNS response message: `bindLookupIP` reads only the
answer section. -/
structure DnsMsg where
  answer : List RR
  deriving DecidableEq

/-- Model of the DNS query built by `bindLookupIP`: question name, question
type, and the recursion-desired flag, as set by `SetQuestion` and the
assignment to `RecursionDesired`. -/
structure DnsQuery where
  name : String
  qtype : Nat
  recursionDesired : Bool
  deriving DecidableEq

/-- The fields of `DialConfig` that `LookupIP` reads.  The device-binding
provider is an interface value tested against nil, so its presence is a
boolean here; the behavior of its `BindToDevice` call lives in `Env`. -/
structure DialConfig where
  BindToDeviceProvider : Bool
  BindToDeviceDnsServer : String
  ConnectTimeout : Nat
  deriving DecidableEq

/-- Decidable equality for `Except`, needed to decide concrete statements
about environments. -/
instance exceptDecEq {ε α : Type} [DecidableEq ε] [DecidableEq α] :
    DecidableEq (Except ε α)
  | Except.error a, Except.error b =>
    if h : a = b then isTrue (by rw [h]) else isFalse (by simp [h])
  | Except.error _, Except.ok _ => isFalse (by simp)
  | Except.ok _, Except.error _ => isFalse (by simp)
  | Except.ok a, Except.ok b =>
    if h : a = b then isTrue (by rw [h]) else isFalse (by simp [h])

/-- Outcome environment for the external calls a lookup performs.  Each field
is the result the outside world (kernel, DNS library, platform resolver)
would hand back at the corresponding call site; errors are abstract strings.
`bindResult` is the outcome of `BindToDeviceProvider.BindToDevice`, recorded
here because the call happens even though the source never reads its
result. -/
structure Env where
  socketResult : Except String Nat
  bindResult : Option String
  connectResult : Option String
  fileConnResult : Option String
  writeResult : Option String
  readResult : Except String DnsMsg
  platformResult : Except String (List IP)
  deriving DecidableEq

/-- Errors as the caller of `LookupIP` sees them: either wrapped by
`ContextError` with the context of the failing call, or passed through
unchanged from the platform resolver. -/
inductive LookupErr where
  | contextError (context : String) (cause : String)
  | plain (cause : String)
  deriving DecidableEq

/-- Modelled from the spec: `ContextError` is defined elsewhere in this
repository (not in the sources at hand) and, per the spec, enriches an error
with the context of the call that surfaces it — for the bound lookup path,
the attempted hostname. -/
def ContextError (context : String) (cause : String) : LookupErr :=
  LookupErr.contextError context cause

/-- The Go return pair of `LookupIP`: the address slice (`none` models a nil
slice, `some []` a non-nil empty slice) and the error value. -/
structure LookupResult where
  addrs : Option (List IP)
  err : Option LookupErr
  deriving DecidableEq

/-- External events a lookup performs, in program order.  `closeFd` is the
raw deferred `syscall.Close` on a descriptor; `fileClose` is the deferred
`Close` of the `os.File` wrapping that same descriptor (`os.NewFile` wraps
the given descriptor, and closing the file closes it); `connClose` closes
the connection returned by `net.FileConn`, which owns a duplicate
descriptor, so it is not a close of the original one. -/
inductive Event where
  | socketCreate
  | bindToDevice (fd : Nat)
  | connect (addr : List Nat) (port : Nat)
  | newFile (fd : Nat)
  | fileConn
  | setReadDeadline (d : Nat)
  | setWriteDeadline (d : Nat)
  | writeMsg (q : DnsQuery)
  | readMsg
  | connClose
  | fileClose (fd : Nat)
  | closeFd (fd : Nat)
  | platformLookup (host : String)
  deriving DecidableEq

/-- Embedding of `bindLookupIP` from `psiphon/LookupIP.go`.  Returns the Go
return pair together with the trace of external events, in order; deferred
closes appear at each return point in last-in-first-out order, as Go runs
them.  Note two properties of the source reproduced faithfully here: the
result of `BindToDevice` is never read (`env.bindResult` is unused), and the
error returned by `dnsConn.WriteMsg` is never read (`env.writeResult` is
unused): the code proceeds to the read unconditionally. -/
def bindLookupIP (host : String) (config : DialConfig) (env : Env) :
    LookupResult × List Event :=
  -- When the input host is an IP address, echo it back
  match ParseIP host with
  | some ipAddr => (⟨some [ipAddr], none⟩, [])
  | none =>
    match env.socketResult with
    | Except.error e => (⟨none, some (ContextError host e)⟩, [Event.socketCreate])
    | Except.ok socketFd =>
      -- defer syscall.Close(socketFd) is now registered
      let ev0 : List Event := [Event.socketCreate, Event.bindToDevice socketFd]
      -- config.BindToDeviceDnsServer must be an IP address
      match ParseIP config.BindToDeviceDnsServer with
      | none =>
        (⟨none, some (ContextError host "invalid IP address")⟩,
         ev0 ++ [Event.closeFd socketFd])
      | some resolverAddr =>
        -- var ip [4]byte; copy(ip[:], ipAddr.To4())
        let ip : List Nat :=
          match To4 resolverAddr with
          | some b => b
          | none => [0, 0, 0, 0]
        let ev1 := ev0 ++ [Event.connect ip DNS_PORT]
        match env.connectResult with
        | some e =>
          (⟨none, some (ContextError host e)⟩, ev1 ++ [Event.closeFd socketFd])
        | none =>
          -- file := os.NewFile(uintptr(socketFd), ""); defer file.Close()
          let ev2 := ev1 ++ [Event.newFile socketFd, Event.fileConn]
          match env.fileConnResult with
          | some e =>
            (⟨none, some (ContextError host e)⟩,
             ev2 ++ [Event.fileClose socketFd, Event.closeFd socketFd])
          | none =>
            let ev3 :=
              if config.ConnectTimeout ≠ 0 then
                ev2 ++ [Event.setReadDeadline config.ConnectTimeout,
                        Event.setWriteDeadline config.ConnectTimeout]
              else ev2
            let query : DnsQuery := ⟨Fqdn host, TypeA, true⟩
            -- dnsConn.WriteMsg(query): its error result is discarded
            let ev4 := ev3 ++ [Event.writeMsg query, Event.readMsg]
            let closes : List Event :=
              [Event.connClose, Event.fileClose socketFd, Event.closeFd socketFd]
            match env.readResult with
            | Except.error e =>
              (⟨none, some (ContextError host e)⟩, ev4 ++ closes)
            | Except.ok response =>
              let addrs := response.answer.filterMap fun r =>
                match r with
                | RR.A a => some a
                | RR.other => none
              (⟨some addrs, none⟩, ev4 ++ closes)

/-- Modelled from the spec: the platform resolver path (`net.LookupIP`,
outside this repository) returns a parsed literal address directly with no
network I/O, and otherwise consults the platform resolver, whose outcome the
environment supplies and which is returned unchanged. -/
def netLookupIP (host : String) (env : Env) : LookupResult × List Event :=
  match ParseIP host with
  | some ip => (⟨some [ip], none⟩, [])
  | none =>
    match env.platformResult with
    | Except.ok addrs => (⟨some addrs, none⟩, [Event.platformLookup host])
    | Except.error e => (⟨none, some (LookupErr.plain e)⟩, [Event.platformLookup host])

/-- Embedding of `LookupIP`: dispatch on the presence of the device-binding
provider. -/
def LookupIP (host : String) (config : DialConfig) (env : Env) :
    LookupResult × List Event :=
  if config.BindToDeviceProvider then bindLookupIP host config env
  else netLookupIP host env

/-- Number of close operations in a trace that target descriptor `fd`: the
raw deferred `syscall.Close` plus the deferred `Close` of the `os.File`
wrapping that same descriptor. -/
def closesTargeting (fd : Nat) (tr : List Event) : Nat :=
  tr.countP fun e => e == Event.closeFd fd || e == Event.fileClose fd

/-- Addresses of the type-A answer records of a response, in response order
(the specification of what the returned list should contain). -/
def aRecordAddrs (m : DnsMsg) : List IP :=
  m.answer.foldr
    (fun r acc =>
      match r with
      | RR.A a => a :: acc
      | RR.other => acc)
    []

/-- An environment in which every external call succeeds and the response
carries two A records around one record of another type. -/
def envOK : Env where
  socketResult := Except.ok 7
  bindResult := none
  connectResult := none
  fileConnResult := none
  writeResult := none
  readResult := Except.ok ⟨[RR.A [1, 2, 3, 4], RR.other, RR.A [5, 6, 7, 8]]⟩
  platformResult := Except.ok []

/-- Environment in which only the query write fails. -/
def envWriteFails : Env := { envOK with writeResult := some "i/o timeout" }

/-- Environment in which socket creation fails. -/
def envSockFail : Env :=
  { envOK with socketResult := Except.error "socket: too many open files" }

/-- Environment in which the datagram connect fails. -/
def envConnFail : Env := { envOK with connectResult := some "network is unreachable" }

/-- A configuration with the device-binding capability present, a literal
IPv4 resolver address, and a nonzero timeout. -/
def cfgOK : DialConfig := ⟨true, "8.8.8.8", 10⟩

/-- Every return of `bindLookupIP` either succeeds with a non-nil address
slice and no error, or fails with a nil slice and an error wrapped by
`ContextError` around the attempted hostname. -/
theorem bindLookupIP_shape (host : String) (config : DialConfig) (env : Env) :
    ((bindLookupIP host config env).1.err = none ∧
      (bindLookupIP host config env).1.addrs.isSome = true) ∨
    ((bindLookupIP host config env).1.addrs = none ∧
      ∃ c, (bindLookupIP host config env).1.err = some (ContextError host c)) := by
  unfold bindLookupIP
  rcases h1 : ParseIP host with _ | ip <;>
    rcases h2 : env.socketResult with e | fd <;>
      rcases h3 : ParseIP config.BindToDeviceDnsServer with _ | r <;>
        rcases h4 : env.connectResult with _ | e2 <;>
          rcases h5 : env.fileConnResult with _ | e3 <;>
            rcases h6 : env.readResult with e4 | msg <;>
              simp [h1, h2, h3, h4, h5, h6, ContextError]

/-- The trace of `bindLookupIP` past the socket stage, as a function of the
configuration and the environment; used to factor trace reasoning. -/
def traceAfterBind (host : String) (config : DialConfig) (env : Env) (fd : Nat) :
    List Event :=
  match ParseIP config.BindToDeviceDnsServer with
  | none => [Event.closeFd fd]
  | some resolverAddr =>
    let ip : List Nat :=
      match To4 resolverAddr with
      | some b => b
      | none => [0, 0, 0, 0]
    Event.connect ip DNS_PORT ::
      match env.connectResult with
      | some _ => [Event.closeFd fd]
      | none =>
        Event.newFile fd :: Event.fileConn ::
          match env.fileConnResult with
          | some _ => [Event.fileClose fd, Event.closeFd fd]
          | none =>
            (if config.ConnectTimeout ≠ 0 then
              [Event.setReadDeadline config.ConnectTimeout,
               Event.setWriteDeadline config.ConnectTimeout]
            else []) ++
            [Event.writeMsg ⟨Fqdn host, TypeA, true⟩, Event.readMsg,
             Event.connClose, Event.fileClose fd, Event.closeFd fd]

/-- On the non-literal bound path with a created socket, the trace is the
socket creation, the device-binding call, and then `traceAfterBind`. -/
theorem bindLookupIP_trace_eq (host : String) (config : DialConfig) (env : Env)
    (fd : Nat) (hh : ParseIP host = none) (hs : env.socketResult = Except.ok fd) :
    (bindLookupIP host config env).2 =
      Event.socketCreate :: Event.bindToDevice fd ::
        traceAfterBind host config env fd := by
  unfold bindLookupIP traceAfterBind
  rcases h3 : ParseIP config.BindToDeviceDnsServer with _ | r <;>
    rcases h4 : env.connectResult with _ | e2 <;>
      rcases h5 : env.fileConnResult with _ | e3 <;>
        rcases h6 : env.readResult with e4 | msg <;>
          simp [hh, hs, h3, h4, h5, h6] <;>
            split_ifs <;> simp

/-- The fold that extracts A-record addresses agrees with `filterMap`. -/
theorem aRecordAddrs_eq_filterMap (m : DnsMsg) :
    aRecordAddrs m = m.answer.filterMap fun r =>
      match r with
      | RR.A a => some a
      | RR.other => none := by
  unfold aRecordAddrs
  induction m.answer with
  | nil => rfl
  | cons r rest ih => cases r <;> simp [ih]

/-- A configuration whose resolver address is a plain IPv6 literal. -/
def cfgV6 : DialConfig := ⟨true, "2001:db8::1", 0⟩

/-- A configuration whose resolver address is the IPv6 loopback literal. -/
def cfgV6Loop : DialConfig := ⟨true, "::1", 0⟩

/-- A configuration whose resolver address is an IPv4-mapped IPv6 literal. -/
def cfgV4Mapped : DialConfig := ⟨true, "::ffff:8.8.8.8", 0⟩

/-- A configuration whose resolver address is not an IP address at all. -/
def cfgBadResolver : DialConfig := ⟨true, "dns.google", 0⟩

/-- Claim C1: a hostname that parses as a literal IP address (IPv4 or IPv6)
is returned as the one-element list holding the parsed address, with no
error and no external events, on both the bound and the non-bound path. -/
theorem lookupIP_literal_echoed (host : String) (a : IP) (config : DialConfig)
    (env : Env) (h : ParseIP host = some a) :
    LookupIP host config env = (⟨some [a], none⟩, []) := by
  by_cases hb : config.BindToDeviceProvider <;>
    simp [LookupIP, bindLookupIP, netLookupIP, hb, h]

/-- Witness for claim C1 at the literal hosts 127.0.0.1. -/
theorem lookupIP_literal_echoed_witness :
    ParseIP "127.0.0.1" = some (v4InV6 127 0 0 1) ∧
    LookupIP "127.0.0.1" cfgOK envOK = (⟨some [v4InV6 127 0 0 1], none⟩, []) :=
  ⟨by decide,
   lookupIP_literal_echoed "127.0.0.1" (v4InV6 127 0 0 1) cfgOK envOK (by decide)⟩

/-- Claim C2: the source discards the error returned by `dnsConn.WriteMsg`,
so a failing query write does not abort the lookup: with the write failing
and the read succeeding, the call still reads the response and returns its
addresses with no error, contradicting the claim that a write failure
surfaces as a query-write error and stops the remaining steps. -/
theorem bindLookupIP_write_error_swallowed :
    envWriteFails.writeResult = some "i/o timeout" ∧
    (bindLookupIP "example.com" cfgOK envWriteFails).1 =
      ⟨some [[1, 2, 3, 4], [5, 6, 7, 8]], none⟩ ∧
    Event.readMsg ∈ (bindLookupIP "example.com" cfgOK envWriteFails).2 := by
  decide

/-- Counterexample to claim C3: a syntactically valid IPv6 literal resolver
address is not rejected at the parse step; the lookup proceeds, connects,
and here even succeeds with no error at all. -/
theorem bindLookupIP_ipv6_resolver_not_rejected :
    (bindLookupIP "example.com" cfgV6Loop envOK).1.err = none ∧
    Event.connect [0, 0, 0, 0] DNS_PORT ∈
      (bindLookupIP "example.com" cfgV6Loop envOK).2 := by
  decide

/-- Claim C3 as amended: on the bound path with a non-literal hostname, a
configured resolver address that does not parse as an IP address at all
(neither IPv4 nor IPv6) makes the lookup fail with the invalid-resolver
error, with a nil address list, before any socket connect is attempted
(the trace ends at the deferred close). -/
theorem bindLookupIP_unparseable_resolver_rejected (host : String)
    (config : DialConfig) (env : Env) (fd : Nat)
    (hh : ParseIP host = none) (hs : env.socketResult = Except.ok fd)
    (hr : ParseIP config.BindToDeviceDnsServer = none) :
    (bindLookupIP host config env).1.err =
      some (ContextError host "invalid IP address") ∧
    (bindLookupIP host config env).1.addrs = none ∧
    (bindLookupIP host config env).2 =
      [Event.socketCreate, Event.bindToDevice fd, Event.closeFd fd] := by
  unfold bindLookupIP
  simp [hh, hs, hr, ContextError]

/-- Witness for the amended claim C3 at a non-address resolver string. -/
theorem bindLookupIP_unparseable_resolver_rejected_witness :
    (bindLookupIP "example.com" cfgBadResolver envOK).1.err =
      some (ContextError "example.com" "invalid IP address") ∧
    (bindLookupIP "example.com" cfgBadResolver envOK).1.addrs = none ∧
    (bindLookupIP "example.com" cfgBadResolver envOK).2 =
      [Event.socketCreate, Event.bindToDevice 7, Event.closeFd 7] :=
  bindLookupIP_unparseable_resolver_rejected "example.com" cfgBadResolver envOK 7
    (by decide) (by decide) (by decide)

/-- Counterexample to claim C4: on a fully successful call the descriptor of
the socket receives two close operations, not one — the deferred close of
the `os.File` wrapping it plus the deferred raw `syscall.Close`. -/
theorem bindLookupIP_socket_fd_closed_twice :
    closesTargeting 7 (bindLookupIP "example.com" cfgOK envOK).2 = 2 ∧
    (bindLookupIP "example.com" cfgOK envOK).1.err = none := by
  decide

/-- Claim C4 as amended: after a successful socket creation, every exit path
runs the deferred raw close exactly once, closes the wrapping file handle
exactly once whenever it was created, closes the DNS connection exactly
once whenever it was created, and no path leaks the socket; but the
descriptor itself is closed twice, not once, on every path that reaches the
file wrap. -/
theorem bindLookupIP_release_every_path (host : String) (config : DialConfig)
    (env : Env) (fd : Nat) (hh : ParseIP host = none)
    (hs : env.socketResult = Except.ok fd) :
    (bindLookupIP host config env).2.count (Event.closeFd fd) = 1 ∧
    (bindLookupIP host config env).2.count (Event.fileClose fd) =
      (bindLookupIP host config env).2.count (Event.newFile fd) ∧
    ((bindLookupIP host config env).2.count Event.connClose =
      if (ParseIP config.BindToDeviceDnsServer).isSome ∧
          env.connectResult = none ∧ env.fileConnResult = none then 1 else 0) ∧
    (closesTargeting fd (bindLookupIP host config env).2 =
      if (ParseIP config.BindToDeviceDnsServer).isSome ∧ env.connectResult = none
      then 2 else 1) := by
  rw [bindLookupIP_trace_eq host config env fd hh hs]
  unfold traceAfterBind closesTargeting
  rcases h3 : ParseIP config.BindToDeviceDnsServer with _ | r <;>
    rcases h4 : env.connectResult with _ | e2 <;>
      rcases h5 : env.fileConnResult with _ | e3 <;>
        by_cases ht : config.ConnectTimeout = 0 <;>
          simp [h3, h4, h5, ht, List.count_cons, List.count_append,
            List.countP_cons, List.countP_append, beq_iff_eq]

/-- Witness for the amended claim C4 on a call that fails at the connect. -/
theorem bindLookupIP_release_every_path_witness :
    (bindLookupIP "example.com" cfgOK envConnFail).2.count (Event.closeFd 7) = 1 ∧
    (bindLookupIP "example.com" cfgOK envConnFail).2.count (Event.fileClose 7) =
      (bindLookupIP "example.com" cfgOK envConnFail).2.count (Event.newFile 7) ∧
    ((bindLookupIP "example.com" cfgOK envConnFail).2.count Event.connClose =
      if (ParseIP cfgOK.BindToDeviceDnsServer).isSome ∧
          envConnFail.connectResult = none ∧ envConnFail.fileConnResult = none
      then 1 else 0) ∧
    (closesTargeting 7 (bindLookupIP "example.com" cfgOK envConnFail).2 =
      if (ParseIP cfgOK.BindToDeviceDnsServer).isSome ∧
          envConnFail.connectResult = none then 2 else 1) :=
  bindLookupIP_release_every_path "example.com" cfgOK envConnFail 7
    (by decide) (by decide)

/-- Claim C5: when the exchange succeeds, the returned list is exactly the
addresses of the type-A answer records in response order, other record
types are skipped, and there is no error (a zero-A response gives the empty
list). -/
theorem bindLookupIP_a_records_in_order (host : String) (config : DialConfig)
    (env : Env) (fd : Nat) (r : IP) (msg : DnsMsg)
    (hh : ParseIP host = none) (hs : env.socketResult = Except.ok fd)
    (hr : ParseIP config.BindToDeviceDnsServer = some r)
    (hc : env.connectResult = none) (hf : env.fileConnResult = none)
    (hm : env.readResult = Except.ok msg) :
    (bindLookupIP host config env).1 = ⟨some (aRecordAddrs msg), none⟩ := by
  unfold bindLookupIP
  simp [hh, hs, hr, hc, hf, hm, aRecordAddrs_eq_filterMap]

/-- Witness for claim C5: two A records around one other record. -/
theorem bindLookupIP_a_records_in_order_witness :
    (bindLookupIP "example.com" cfgOK envOK).1 =
      ⟨some (aRecordAddrs ⟨[RR.A [1, 2, 3, 4], RR.other, RR.A [5, 6, 7, 8]]⟩),
        none⟩ :=
  bindLookupIP_a_records_in_order "example.com" cfgOK envOK 7 (v4InV6 8 8 8 8)
    ⟨[RR.A [1, 2, 3, 4], RR.other, RR.A [5, 6, 7, 8]]⟩
    (by decide) (by decide) (by decide) (by decide) (by decide) (by decide)

/-- Claim C6: on the bound path, a nonzero configured timeout is applied as
the read deadline and then the write deadline immediately before the query
write; a zero timeout sets no deadline at all. -/
theorem bindLookupIP_timeout_deadlines (host : String) (config : DialConfig)
    (env : Env) (fd : Nat) (r : IP)
    (hh : ParseIP host = none) (hs : env.socketResult = Except.ok fd)
    (hr : ParseIP config.BindToDeviceDnsServer = some r)
    (hc : env.connectResult = none) (hf : env.fileConnResult = none) :
    (config.ConnectTimeout ≠ 0 →
      ∃ pre post, (bindLookupIP host config env).2 =
        pre ++ Event.setReadDeadline config.ConnectTimeout ::
          Event.setWriteDeadline config.ConnectTimeout ::
          Event.writeMsg ⟨Fqdn host, TypeA, true⟩ :: post) ∧
    (config.ConnectTimeout = 0 →
      ∀ d, Event.setReadDeadline d ∉ (bindLookupIP host config env).2 ∧
        Event.setWriteDeadline d ∉ (bindLookupIP host config env).2) := by
  rw [bindLookupIP_trace_eq host config env fd hh hs]
  unfold traceAfterBind
  simp only [hr, hc, hf]
  constructor
  · intro ht
    refine ⟨[Event.socketCreate, Event.bindToDevice fd,
      Event.connect
        (match To4 r with
        | some b => b
        | none => [0, 0, 0, 0]) DNS_PORT,
      Event.newFile fd, Event.fileConn],
      [Event.readMsg, Event.connClose, Event.fileClose fd, Event.closeFd fd], ?_⟩
    simp [ht]
  · intro ht d
    simp [ht]

/-- Witness for claim C6 with the ten-unit timeout of `cfgOK`. -/
theorem bindLookupIP_timeout_deadlines_witness :
    (cfgOK.ConnectTimeout ≠ 0 →
      ∃ pre post, (bindLookupIP "example.com" cfgOK envOK).2 =
        pre ++ Event.setReadDeadline cfgOK.ConnectTimeout ::
          Event.setWriteDeadline cfgOK.ConnectTimeout ::
          Event.writeMsg ⟨Fqdn "example.com", TypeA, true⟩ :: post) ∧
    (cfgOK.ConnectTimeout = 0 →
      ∀ d, Event.setReadDeadline d ∉ (bindLookupIP "example.com" cfgOK envOK).2 ∧
        Event.setWriteDeadline d ∉ (bindLookupIP "example.com" cfgOK envOK).2) :=
  bindLookupIP_timeout_deadlines "example.com" cfgOK envOK 7 (v4InV6 8 8 8 8)
    (by decide) (by decide) (by decide) (by decide) (by decide)

/-- Claim C7: on the bound path the device-binding call happens exactly once,
directly after socket creation and before everything else (in particular
before any connect), and its outcome is never read: changing it changes
neither the returned values nor the trace. -/
theorem bindLookupIP_bind_once_result_ignored (host : String)
    (config : DialConfig) (env : Env) (fd : Nat)
    (hh : ParseIP host = none) (hs : env.socketResult = Except.ok fd) :
    (∃ rest, (bindLookupIP host config env).2 =
        Event.socketCreate :: Event.bindToDevice fd :: rest ∧
        ∀ fd2, Event.bindToDevice fd2 ∉ rest) ∧
    (∀ r1 r2, bindLookupIP host config { env with bindResult := r1 } =
        bindLookupIP host config { env with bindResult := r2 }) := by
  constructor
  · rw [bindLookupIP_trace_eq host config env fd hh hs]
    refine ⟨traceAfterBind host config env fd, rfl, ?_⟩
    intro fd2
    unfold traceAfterBind
    rcases h3 : ParseIP config.BindToDeviceDnsServer with _ | r <;>
      rcases h4 : env.connectResult with _ | e2 <;>
        rcases h5 : env.fileConnResult with _ | e3 <;>
          by_cases ht : config.ConnectTimeout = 0 <;>
            simp [h3, h4, h5, ht]
  · intro r1 r2
    cases env
    rfl

/-- Witness for claim C7 on the all-success environment. -/
theorem bindLookupIP_bind_once_result_ignored_witness :
    (∃ rest, (bindLookupIP "example.com" cfgOK envOK).2 =
        Event.socketCreate :: Event.bindToDevice 7 :: rest ∧
        ∀ fd2, Event.bindToDevice fd2 ∉ rest) ∧
    (∀ r1 r2, bindLookupIP "example.com" cfgOK { envOK with bindResult := r1 } =
        bindLookupIP "example.com" cfgOK { envOK with bindResult := r2 }) :=
  bindLookupIP_bind_once_result_ignored "example.com" cfgOK envOK 7
    (by decide) (by decide)

/-- Claim C8: every error surfaced by the bound path is wrapped in the
call-context enrichment around the attempted hostname. -/
theorem bindLookupIP_errors_have_host_context (host : String)
    (config : DialConfig) (env : Env) (e : LookupErr)
    (h : (bindLookupIP host config env).1.err = some e) :
    ∃ cause, e = ContextError host cause := by
  rcases bindLookupIP_shape host config env with ⟨h1, _⟩ | ⟨_, c, h2⟩
  · rw [h1] at h
    cases h
  · rw [h2] at h
    exact ⟨c, (Option.some.inj h).symm⟩

/-- Witness for claim C8 on a failing socket creation. -/
theorem bindLookupIP_errors_have_host_context_witness :
    ∃ cause, ContextError "example.com" "socket: too many open files" =
      ContextError "example.com" cause :=
  bindLookupIP_errors_have_host_context "example.com" cfgOK envSockFail
    (ContextError "example.com" "socket: too many open files") (by decide)

/-- Counterexample to claim C9: the IPv4-mapped address ::ffff:8.8.8.8 is a
syntactically valid IPv6 literal (it is dispatched to and accepted by the
IPv6 grammar), yet its To4 conversion yields the four mapped bytes, so the
socket is connected to 8.8.8.8, not to 0.0.0.0. -/
theorem bindLookupIP_v4mapped_resolver_connects_mapped :
    parseIPKind "::ffff:8.8.8.8".data = some false ∧
    (ParseIP "::ffff:8.8.8.8").isSome = true ∧
    Event.connect [8, 8, 8, 8] DNS_PORT ∈
      (bindLookupIP "example.com" cfgV4Mapped envOK).2 ∧
    Event.connect [0, 0, 0, 0] DNS_PORT ∉
      (bindLookupIP "example.com" cfgV4Mapped envOK).2 := by
  decide

/-- Claim C9 as amended: with a non-literal hostname and a resolver address
that parses as an IPv6 literal with no IPv4 form (To4 yields nothing), the
parse step does not fail: the four-byte destination stays all zeros and the
socket is connected to 0.0.0.0 on port 53 before anything else happens. -/
theorem bindLookupIP_ipv6_resolver_connects_zero (host : String)
    (config : DialConfig) (env : Env) (fd : Nat) (r : IP)
    (hh : ParseIP host = none) (hs : env.socketResult = Except.ok fd)
    (hr : ParseIP config.BindToDeviceDnsServer = some r) (h4 : To4 r = none) :
    ∃ rest, (bindLookupIP host config env).2 =
      Event.socketCreate :: Event.bindToDevice fd ::
        Event.connect [0, 0, 0, 0] DNS_PORT :: rest := by
  rw [bindLookupIP_trace_eq host config env fd hh hs]
  unfold traceAfterBind
  simp only [hr, h4]
  exact ⟨_, rfl⟩

/-- Witness for the amended claim C9 at the resolver literal 2001:db8::1. -/
theorem bindLookupIP_ipv6_resolver_connects_zero_witness :
    ∃ rest, (bindLookupIP "example.com" cfgV6 envOK).2 =
      Event.socketCreate :: Event.bindToDevice 7 ::
        Event.connect [0, 0, 0, 0] DNS_PORT :: rest :=
  bindLookupIP_ipv6_resolver_connects_zero "example.com" cfgV6 envOK 7
    [0x20, 0x01, 0x0d, 0xb8, 0, 0, 0, 0, 0, 0, 0, 0, 0, 0, 0, 1]
    (by decide) (by decide) (by decide) (by decide)

/-- Claim C10: whenever the bound path returns an error, the returned address
slice is nil — no partial addresses accompany an error at any failing
step. -/
theorem bindLookupIP_error_nil_addrs (host : String) (config : DialConfig)
    (env : Env) (e : LookupErr)
    (h : (bindLookupIP host config env).1.err = some e) :
    (bindLookupIP host config env).1.addrs = none := by
  rcases bindLookupIP_shape host config env with ⟨h1, _⟩ | ⟨h1, _⟩
  · rw [h1] at h
    cases h
  · exact h1

/-- Witness for claim C10 on a failing datagram connect. -/
theorem bindLookupIP_error_nil_addrs_witness :
    (bindLookupIP "example.com" cfgOK envConnFail).1.addrs = none :=
  bindLookupIP_error_nil_addrs "example.com" cfgOK envConnFail
    (ContextError "example.com" "network is unreachable") (by decide)

